import Mathlib

set_option maxHeartbeats 1000000

/-!
Verification development for the MermaidPython repository
(`webapp/src/mermaid.py` and `webapp/src/diagrams.py`).

The Python code is shallowly embedded: Python dict/str values become the
inductive `PyVal`, raised exceptions become the `PyError` sum carried in
`Except`, and the recursive functions take an explicit fuel argument that
models the Python call-stack (running out of fuel is `RecursionError`).
The process-global `itertools.count` node-id counter is threaded as an
explicit natural number.
-/

/-- A Python value as used by the configuration dictionaries and dependency
trees of `diagrams.py`: either a string or a dict with string keys, kept in
insertion order. -/
inductive PyVal : Type where
  | str : String → PyVal
  | dict : List (String × PyVal) → PyVal
deriving Repr

/-- Python `v == s` for a string literal `s`: a dict never equals a string. -/
def pyEqStr (v : PyVal) (s : String) : Bool :=
  match v with
  | .str s2 => s2 == s
  | .dict _ => false

/-- Python `v == s` where `v` may be `None` (`None == s` is `False`). -/
def optEqStr (v : Option PyVal) (s : String) : Bool :=
  match v with
  | some v2 => pyEqStr v2 s
  | none => false

/-- The Python exception classes that the embedded code can raise,
distinguished by class (and by message where the code sets one). `exception`
is a bare `Exception(msg)`; `recursionError` models exhausting the
interpreter stack (our fuel). -/
inductive PyError : Type where
  | keyError : String → PyError
  | attributeError : PyError
  | typeError : String → PyError
  | exception : String → PyError
  | stopIteration : PyError
  | recursionError : PyError
deriving Repr, DecidableEq

/-- First-match lookup in an association list: `d.get(k)` on a Python dict
(Python dicts have unique keys; on lists with duplicates this returns the
first binding, which is what iteration order would expose anyway). -/
def dictGet (es : List (String × PyVal)) (k : String) : Option PyVal :=
  match es with
  | [] => none
  | (k2, v) :: rest => if k2 = k then some v else dictGet rest k

/-- Python `v.get(k)` for an arbitrary value: a `str` has no `.get`, so Python
raises `AttributeError`. -/
def pyGet (v : PyVal) (k : String) : Except PyError (Option PyVal) :=
  match v with
  | .str _ => .error .attributeError
  | .dict es => .ok (dictGet es k)

/-- Python `d[k] = v` on a dict: overwriting keeps the original position,
a fresh key is appended. -/
def dictSet (es : List (String × PyVal)) (k : String) (v : PyVal) :
    List (String × PyVal) :=
  match es with
  | [] => [(k, v)]
  | (k2, v2) :: rest =>
    if k2 = k then (k2, v) :: rest else (k2, v2) :: dictSet rest k v

/-- Python `d.update(other)`: merges every binding of `other` into `d` with
`d[k] = v` semantics.  Updating from a non-dict raises (unreachable in this
code base: the updated value is always the dict returned by the recursive
call). -/
def dictUpdate (es : List (String × PyVal)) (v : PyVal) :
    Except PyError (List (String × PyVal)) :=
  match v with
  | .str _ => .error (.typeError "cannot convert dictionary update sequence")
  | .dict new => .ok (new.foldl (fun acc kv => dictSet acc kv.1 kv.2) es)

/-- The key argument of `get_source_dependency_tree` during recursion: the
top-level caller passes a string, but a missing `left`/`right`/`original`
field makes the code recurse with Python `None` (modelled as `none`). -/
def keyRepr : Option PyVal → String
  | none => "None"
  | some (.str s) => s
  | some (.dict _) => "dict"

/-- Python `d.get(key)` where `key` is an arbitrary recursion argument.  `None` is
never a key of a string-keyed dict, so the lookup just misses; an unhashable
dict key raises `TypeError` (unreachable on realistic configurations and
never exercised by a claim). -/
def pyGetKey (v : PyVal) (k : Option PyVal) : Except PyError (Option PyVal) :=
  match v with
  | .str _ => .error .attributeError
  | .dict es =>
    match k with
    | none => .ok none
    | some (.str s) => .ok (dictGet es s)
    | some (.dict _) => .error (.typeError "unhashable type: dict")

/-- The list `complex_sources` from `diagrams.py` line 55. -/
def complex_sources : List String := ["mapping", "union", "multi"]

/-- The test `source_type not in complex_sources` (negated): Python `in` compares the
value against each string, and a non-string value equals no string. -/
def isComplexType (t : Option PyVal) : Bool :=
  match t with
  | some (.str s) => complex_sources.contains s
  | _ => false

/-- The function `get_source_dependency_tree` from `diagrams.py` lines 31-95, with fuel
for the Python recursion.  Control flow, lookup order and every raised
exception mirror the source line by line; the union loop is the sequential
`for union_source in sources: union_nest.update(...)` with early exit on an
exception. -/
def get_source_dependency_tree (sources_config : PyVal) (fuel : Nat)
    (source_key : Option PyVal) : Except PyError PyVal :=
  match fuel with
  | 0 => .error .recursionError
  | fuel + 1 =>
    match pyGetKey sources_config source_key with
    | .error e => .error e
    | .ok none =>
      .error (.keyError ("The source key " ++ keyRepr source_key ++
        " was not found in the sources config."))
    | .ok (some source_config) =>
      match pyGet source_config "type" with
      | .error e => .error e
      | .ok source_type =>
        if isComplexType source_type = false then
          match source_type with
          | none =>
            -- type inferred from the connection config
            match pyGet source_config "connection" with
            | .error e => .error e
            | .ok none => .error .attributeError  -- None.get("config")
            | .ok (some connection) =>
              match pyGet connection "config" with
              | .error e => .error e
              | .ok none => .error (.exception "Invalid source config.")
              | .ok (some config) =>
                match config with
                | .str _ => .error .attributeError  -- str has no .keys()
                | .dict ces =>
                  if "file_type" ∈ ces.map Prod.fst then
                    .ok (.dict [(keyRepr source_key, .str "file")])
                  else
                    .ok (.dict [(keyRepr source_key, .str "sql")])
          | some t =>
            if pyEqStr t "union_directory" then
              .ok (.dict [(keyRepr source_key, .str "union_directory")])
            else
              .error (.exception
                "Invalid source type. Must be either: sql, file, union_dir, mapping, union or multi.")
        else if optEqStr source_type "mapping" then
          match pyGet source_config "left" with
          | .error e => .error e
          | .ok left_source =>
            match pyGet source_config "right" with
            | .error e => .error e
            | .ok right_source =>
              match get_source_dependency_tree sources_config fuel left_source with
              | .error e => .error e
              | .ok left_tree =>
                match get_source_dependency_tree sources_config fuel right_source with
                | .error e => .error e
                | .ok right_tree =>
                  .ok (.dict [(keyRepr source_key,
                    .dict [("mapping",
                      .dict [("left", left_tree), ("right", right_tree)])])])
        else if optEqStr source_type "union" then
          match pyGet source_config "sources" with
          | .error e => .error e
          | .ok none => .error (.keyError "sources")  -- source_config["sources"]
          | .ok (some (.str _)) => .error .attributeError  -- str has no .keys()
          | .ok (some (.dict ses)) =>
            match ses.foldl
                (fun (acc : Except PyError (List (String × PyVal))) kv =>
                  match acc with
                  | .error e => .error e
                  | .ok accd =>
                    match get_source_dependency_tree sources_config fuel
                        (some (.str kv.1)) with
                    | .error e => .error e
                    | .ok sub => dictUpdate accd sub)
                (.ok ([] : List (String × PyVal))) with
            | .error e => .error e
            | .ok union_nest =>
              .ok (.dict [(keyRepr source_key, .dict [("union", .dict union_nest)])])
        else if optEqStr source_type "multi" then
          match pyGet source_config "original" with
          | .error e => .error e
          | .ok original =>
            match get_source_dependency_tree sources_config fuel original with
            | .error e => .error e
            | .ok original_nest =>
              .ok (.dict [(keyRepr source_key, .dict [("multi", original_nest)])])
        else
          -- unreachable: isComplexType limits source_type to the three cases
          .ok (.dict [])

/-! ## The graph model: `mermaid.py` -/

/-- A mermaid `Node` (`mermaid.py` lines 23-52).  The globally unique id that
`itertools.count(100)` hands out is threaded explicitly through `Node.make`. -/
structure Node where
  label : String
  node_id : String
  shape : String
  style : Option String
deriving Repr, DecidableEq

/-- The constructor `Node.__init__`: takes the current value of the global id counter and
returns the node together with the advanced counter. -/
def Node.make (ctr : Nat) (label : String) (shape : String)
    (style : Option String) : Node × Nat :=
  ({ label := label, node_id := toString ctr, shape := shape, style := style },
   ctr + 1)

/-- First-match lookup in a string association list (a Python dict with
string keys and string values). -/
def lookupStr (es : List (String × String)) (k : String) : Option String :=
  match es with
  | [] => none
  | (k2, v) :: rest => if k2 = k then some v else lookupStr rest k

/-- The table `self.shape_map` from `Node.__init__` (`mermaid.py` lines 34-47), in
source order. -/
def shape_map : List (String × String) :=
  [("rounded", "()"),
   ("stadium", "([])"),
   ("subroutine", "[[]]"),
   ("cylinder", "[()]"),
   ("circle", "(())"),
   ("asymmetric", ">]"),
   ("rhombus", "\x7b\x7d"),
   ("hexagon", "\x7b\x7b\x7d\x7d"),
   ("parallelogram", "[//]"),
   ("parallelogram_alt", "[\\\\]"),
   ("trapezoid", "[/\\]"),
   ("trapezoid_alt", "[\\/]")]

/-- Python truthiness of an optional string: `None` and `""` are falsy. -/
def truthyS : Option String → Bool
  | none => false
  | some s => !(s == "")

/-- Python truthiness of an optional int: `None` and `0` are falsy. -/
def truthyI : Option Int → Bool
  | none => false
  | some i => !(i == 0)

/-- Python truthiness of an optional list: `None` and `[]` are falsy. -/
def truthyL : Option (List Int) → Bool
  | none => false
  | some l => !l.isEmpty

/-- Python `s[:-1]`: drop the final character (identity on the empty
string). -/
def strDropLast (s : String) : String :=
  String.mk s.data.dropLast

/-- The method `Node.set_style` (`mermaid.py` lines 54-79).  Each `if fill:` test is
Python truthiness, so an empty string, a zero width or an empty dash array
contribute no fragment; the final `style[:-1]` drops the last character of
whatever was accumulated. -/
def Node.set_style (n : Node) (fill : Option String) (stroke : Option String)
    (stroke_width : Option Int) (stroke_dasharray : Option (List Int)) : Node :=
  let style := "style " ++ n.node_id
  let style := if truthyS fill then
      style ++ " fill:" ++ Option.getD fill "" ++ "," else style
  let style := if truthyS stroke then
      style ++ " stroke:" ++ Option.getD stroke "" ++ "," else style
  let style := if truthyI stroke_width then
      style ++ " stroke-width:" ++ toString (Option.getD stroke_width 0) ++ "px,"
    else style
  let style := if truthyL stroke_dasharray then
      style ++ " stroke-dasharray: " ++
        String.intercalate " " ((Option.getD stroke_dasharray []).map toString) ++ ","
    else style
  { n with style := some (strDropLast style) }

/-- The method `Node.set_shape` (`mermaid.py` lines 81-100): named lookup in
`shape_map`, `KeyError` listing the valid names when absent. -/
def Node.set_shape (n : Node) (shape_name : String) : Except PyError Node :=
  match lookupStr shape_map shape_name with
  | some shape => .ok { n with shape := shape }
  | none =>
    .error (.keyError (shape_name ++ " does not exist. Available options are: " ++
      String.intercalate ", " (shape_map.map Prod.fst)))

/-- The method `Node.set_shape_raw` (`mermaid.py` lines 102-118): accepts exactly the
values of `shape_map`, raising a bare `Exception` otherwise. -/
def Node.set_shape_raw (n : Node) (shape_str : String) : Except PyError Node :=
  if shape_str ∈ shape_map.map Prod.snd then
    .ok { n with shape := shape_str }
  else
    .error (.exception ("Shape string " ++ shape_str ++
      " is not valid. Valid options are: " ++
      String.intercalate ", " (shape_map.map Prod.snd)))

/-- The method `Node.get_node_code` (`mermaid.py` lines 120-127): the shape string is
split at `int(len(shape)/2)` and the label embedded between the halves. -/
def Node.get_node_code (n : Node) : String :=
  let shape_midpoint := n.shape.length / 2
  "\n" ++ n.node_id ++ n.shape.take shape_midpoint ++ n.label ++
    n.shape.drop shape_midpoint

/-- A mermaid `Flowchart` (`mermaid.py` lines 130-223).  `hrefs` and
`clicks` are Python dicts keyed by the node object; two distinct nodes
always carry distinct ids, so we key by `node_id`. -/
structure Flowchart where
  orient : String
  theme : String
  nodes : List Node
  paths : List String
  hrefs : List (String × String)
  clicks : List (String × String)
deriving Repr, DecidableEq

/-- A `Flowchart()` with the default arguments. -/
def Flowchart.empty : Flowchart :=
  { orient := "TD", theme := "default", nodes := [], paths := [], hrefs := [],
    clicks := [] }

/-- The method `Flowchart.add_node`. -/
def Flowchart.add_node (fc : Flowchart) (node : Node) : Flowchart :=
  { fc with nodes := fc.nodes ++ [node] }

/-- The method `Flowchart.add_nodes`. -/
def Flowchart.add_nodes (fc : Flowchart) (node_list : List Node) : Flowchart :=
  { fc with nodes := fc.nodes ++ node_list }

/-- The method `Flowchart.add_path` (`mermaid.py` lines 161-172): records the rendered
edge string; a non-empty label is wrapped in pipes. -/
def Flowchart.add_path (fc : Flowchart) (start_node : Node) (end_node : Node)
    (label : String) (path_style : String) : Flowchart :=
  let label2 := if label = "" then label else "|" ++ label ++ "|"
  { fc with paths := fc.paths ++
      ["\n" ++ start_node.node_id ++ " " ++ path_style ++ label2 ++
        end_node.node_id] }

/-- Python dict assignment semantics on a string-keyed directive table. -/
def assocSet (es : List (String × String)) (k : String) (v : String) :
    List (String × String) :=
  match es with
  | [] => [(k, v)]
  | (k2, v2) :: rest =>
    if k2 = k then (k2, v) :: rest else (k2, v2) :: assocSet rest k v

/-- The method `Flowchart.add_href_click` (`mermaid.py` lines 174-185). -/
def Flowchart.add_href_click (fc : Flowchart) (node : Node)
    (click_value : String) (tooltip : String) : Flowchart :=
  let tooltip2 := if tooltip = "_blank" then tooltip
    else "\"" ++ tooltip ++ "\" _blank"
  { fc with hrefs := (assocSet fc.hrefs node.node_id
      ("\nclick " ++ node.node_id ++ " \"" ++ click_value ++ "\" " ++ tooltip2)) }

/-- The method `Flowchart.add_fn_click` (`mermaid.py` lines 187-195).  Note the
trailing space the f-string leaves after the quoted tooltip. -/
def Flowchart.add_fn_click (fc : Flowchart) (node : Node)
    (click_value : String) (tooltip : String) : Flowchart :=
  { fc with clicks := (assocSet fc.clicks node.node_id
      ("\nclick " ++ node.node_id ++ " call " ++ click_value ++ " \"" ++
        tooltip ++ "\" ")) }

/-- Python `s.strip(" ")`: remove spaces (only spaces) from both ends. -/
def stripSpaces (s : String) : String :=
  String.mk (((s.data.dropWhile (fun c => c == ' ')).reverse.dropWhile
    (fun c => c == ' ')).reverse)

/-- The method `Flowchart.to_mermaid` (`mermaid.py` lines 197-223): header, then per
node its definition line (space-stripped) and optional style line, then the
recorded paths, then the fn-click directives, then the href directives. -/
def Flowchart.to_mermaid (fc : Flowchart) : String :=
  let mermaid := "graph " ++ fc.orient
  let mermaid := fc.nodes.foldl
    (fun acc node =>
      let acc2 := acc ++ stripSpaces node.get_node_code
      match node.style with
      | some st => acc2 ++ "\n" ++ stripSpaces st
      | none => acc2)
    mermaid
  let mermaid := fc.paths.foldl (fun acc p => acc ++ stripSpaces p) mermaid
  let mermaid := fc.clicks.foldl (fun acc kv => acc ++ stripSpaces kv.2) mermaid
  let mermaid := fc.hrefs.foldl (fun acc kv => acc ++ stripSpaces kv.2) mermaid
  mermaid

/-! ## The tree-to-graph builder: `build_source_dependency_chart` -/

/-- The table `leaf_node_map` from `diagrams.py` line 125. -/
def leaf_node_map : List (String × String) :=
  [("file", "[]"), ("sql", "[()]"), ("union_directory", "[[]]")]

/-- The function `build_source_dependency_chart` (`diagrams.py` lines 98-171), with fuel
for the Python recursion and the global node-id counter threaded through.
The tree argument is an `Option` because the code recurses with the result
of `dict.get`, which can be `None` on malformed trees (Python would then
fail with `AttributeError` on `None.keys()`).  An empty tree dict makes
`next(iter(...))` raise `StopIteration`. -/
def build_source_dependency_chart (fuel : Nat) (chart : Flowchart) (ctr : Nat)
    (dependency_tree : Option PyVal) (parent_source : Option Node)
    (map_right : Bool) : Except PyError (Flowchart × Nat) :=
  match fuel with
  | 0 => .error .recursionError
  | fuel + 1 =>
    match dependency_tree with
    | none => .error .attributeError        -- None.keys()
    | some (.str _) => .error .attributeError  -- str.keys() does not exist
    | some (.dict []) => .error .stopIteration -- next(iter({}.keys()))
    | some (.dict ((source, v0) :: rest)) =>
      match dictGet ((source, v0) :: rest) source with
      | some (.str nest) =>
        -- leaf level source
        match lookupStr leaf_node_map nest with
        | none => .error (.exception
            "Leaf level sources should have one of the following types: file, sql & union_directory")
        | some shp =>
          let source_node : Node :=
            { label := source, node_id := toString ctr, shape := shp,
              style := none }
          let chart := chart.add_node source_node
          match parent_source with
          | some parent =>
            if map_right then
              .ok (chart.add_path source_node parent "" "-.->", ctr + 1)
            else
              .ok (chart.add_path source_node parent "" "-->", ctr + 1)
          | none => .ok (chart, ctr + 1)
      | some (.dict nes) =>
        -- complex source: hexagon node, always a solid edge to the parent
        let source_node : Node :=
          { label := source, node_id := toString ctr,
            shape := "\x7b\x7b\x7d\x7d", style := none }
        let chart := chart.add_node source_node
        let chart := match parent_source with
          | some parent => chart.add_path source_node parent "" "-->"
          | none => chart
        if "mapping" ∈ nes.map Prod.fst then
          match dictGet nes "mapping" with
          | none => .error .attributeError  -- None.get("left")
          | some (.str _) => .error .attributeError
          | some (.dict mes) =>
            match build_source_dependency_chart fuel chart (ctr + 1)
                (dictGet mes "left") (some source_node) false with
            | .error e => .error e
            | .ok res1 =>
              build_source_dependency_chart fuel res1.1 res1.2
                (dictGet mes "right") (some source_node) true
        else if "union" ∈ nes.map Prod.fst then
          match dictGet nes "union" with
          | none => .error .attributeError  -- None.items()
          | some (.str _) => .error .attributeError
          | some (.dict ues) =>
            ues.foldl
              (fun (acc : Except PyError (Flowchart × Nat)) kv =>
                match acc with
                | .error e => .error e
                | .ok st =>
                  build_source_dependency_chart fuel st.1 st.2
                    (some (.dict [(kv.1, kv.2)])) (some source_node) false)
              (.ok (chart, ctr + 1))
        else if "multi" ∈ nes.map Prod.fst then
          build_source_dependency_chart fuel chart (ctr + 1)
            (dictGet nes "multi") (some source_node) false
        else
          .error (.exception
            "Dependency dict error. Complex sources should have type: mapping, union or multi.")
      | none => .error (.typeError
          "Invalid simple source type or complex source without information on its children?")

/-! ## Well-formed dependency trees

The spec's dependency-tree data model (section 3) as an explicit tagged
union: each node carries its source key; leaves carry a leaf-kind tag;
`union` children form a forest.  `toVal` renders the tree as the Python
dict the resolver produces and the builder consumes. -/

mutual
inductive DTree : Type where
  | leaf : String → String → DTree
  | mapNode : String → DTree → DTree → DTree
  | unionNode : String → DForest → DTree
  | multiNode : String → DTree → DTree
inductive DForest : Type where
  | nil : DForest
  | cons : DTree → DForest → DForest
end

/-- The root source key of a dependency tree. -/
def DTree.key : DTree → String
  | .leaf k _ => k
  | .mapNode k _ _ => k
  | .unionNode k _ => k
  | .multiNode k _ => k

mutual
/-- The nested value stored under the root key: a leaf tag string, or the
one-entry composite dict. -/
def DTree.nest : DTree → PyVal
  | .leaf _ tag => .str tag
  | .mapNode _ l r =>
    .dict [("mapping", .dict [("left", .dict [(l.key, l.nest)]),
                              ("right", .dict [(r.key, r.nest)])])]
  | .unionNode _ f => .dict [("union", .dict f.entries)]
  | .multiNode _ c => .dict [("multi", .dict [(c.key, c.nest)])]
/-- The merged union dict: one root entry per child, in order. -/
def DForest.entries : DForest → List (String × PyVal)
  | .nil => []
  | .cons t f => (t.key, t.nest) :: f.entries
end

/-- The Python dict rendering of a dependency tree: a one-entry dict. -/
def DTree.toVal (t : DTree) : PyVal := .dict [(t.key, t.nest)]

mutual
/-- Number of source-key entries in the tree (one per node). -/
def DTree.keyCount : DTree → Nat
  | .leaf _ _ => 1
  | .mapNode _ l r => 1 + l.keyCount + r.keyCount
  | .unionNode _ f => 1 + f.keyCount
  | .multiNode _ c => 1 + c.keyCount
def DForest.keyCount : DForest → Nat
  | .nil => 0
  | .cons t f => t.keyCount + f.keyCount
end

/-- The child keys of a forest, in order. -/
def DForest.keys : DForest → List String
  | .nil => []
  | .cons t f => t.key :: f.keys

mutual
/-- Nesting depth of a tree: the recursion depth `build` needs. -/
def DTree.depth : DTree → Nat
  | .leaf _ _ => 1
  | .mapNode _ l r => max l.depth r.depth + 1
  | .unionNode _ f => f.depth + 1
  | .multiNode _ c => c.depth + 1
def DForest.depth : DForest → Nat
  | .nil => 0
  | .cons t f => max t.depth f.depth
end

mutual
/-- Well-formedness for the builder: every leaf tag is one of the three
known leaf kinds (i.e. has a shape in `leaf_node_map`). -/
def DTree.wf : DTree → Prop
  | .leaf _ tag => (lookupStr leaf_node_map tag).isSome = true
  | .mapNode _ l r => l.wf ∧ r.wf
  | .unionNode _ f => f.wf
  | .multiNode _ c => c.wf
def DForest.wf : DForest → Prop
  | .nil => True
  | .cons t f => t.wf ∧ f.wf
end

/-! ## General helper lemmas -/

theorem keyRepr_str (s : String) : keyRepr (some (.str s)) = s := rfl

theorem pyGetKey_dict_str (es : List (String × PyVal)) (s : String) :
    pyGetKey (.dict es) (some (.str s)) = .ok (dictGet es s) := rfl

theorem pyGetKey_dict_none (es : List (String × PyVal)) :
    pyGetKey (.dict es) none = .ok none := rfl

theorem pyGet_dict (es : List (String × PyVal)) (k : String) :
    pyGet (.dict es) k = .ok (dictGet es k) := rfl

theorem dictGet_head (k : String) (v : PyVal) (rest : List (String × PyVal)) :
    dictGet ((k, v) :: rest) k = some v := by
  simp [dictGet]

/-- Setting a key that is not yet bound appends the binding. -/
theorem dictSet_of_not_mem (es : List (String × PyVal)) (k : String) (v : PyVal)
    (h : k ∉ es.map Prod.fst) : dictSet es k v = es ++ [(k, v)] := by
  induction es with
  | nil => rfl
  | cons kv rest ih =>
    simp only [List.map_cons, List.mem_cons] at h
    push_neg at h
    simp [dictSet, Ne.symm h.1, ih h.2]

/-! ## Claim C1: the worked mapping scenario -/

/-- The C1 configuration:
`{"m": {"type":"mapping","left":"l","right":"r"},
  "l": {"connection":{"config":{"file_type":"csv"}}},
  "r": {"connection":{"config":{}}}}`. -/
def c1Config : PyVal :=
  .dict [("m", .dict [("type", .str "mapping"), ("left", .str "l"),
            ("right", .str "r")]),
         ("l", .dict [("connection",
            .dict [("config", .dict [("file_type", .str "csv")])])]),
         ("r", .dict [("connection", .dict [("config", .dict [])])])]

/-- The dependency tree C1 expects:
`{"m": {"mapping": {"left": {"l":"file"}, "right": {"r":"sql"}}}}`. -/
def c1Tree : PyVal :=
  .dict [("m", .dict [("mapping",
    .dict [("left", .dict [("l", .str "file")]),
           ("right", .dict [("r", .str "sql")])])])]

/-- C1: on the three-source mapping configuration, resolving `"m"` yields
exactly the expected tree, and building that tree on a fresh flowchart
(fresh node counter at 100) yields exactly three nodes (`m` the hexagon,
`l` the file rectangle, `r` the sql cylinder) and two edges: `l`'s node to
`m`'s node solid (`-->`), `r`'s node to `m`'s node dashed (`-.->`). -/
theorem c1_mapping_scenario :
    get_source_dependency_tree c1Config 2 (some (.str "m")) = .ok c1Tree ∧
    (build_source_dependency_chart 2 Flowchart.empty 100 (some c1Tree) none
        false).map
      (fun r => (r.1.nodes.map (fun n => (n.label, n.node_id, n.shape)),
        r.1.paths, r.2)) =
      .ok ([("m", "100", "\x7b\x7b\x7d\x7d"), ("l", "101", "[]"),
            ("r", "102", "[()]")],
        ["\n101 -->100", "\n102 -.->100"], 103) :=
  ⟨rfl, rfl⟩

/-! ## Claim C3: a missing key fails with KeyError before anything else -/

/-- C3: for every configuration dict and key, if the key is not bound in the
configuration then `get_source_dependency_tree` fails with the `KeyError`
naming that key (fuel only needs to be positive: the check happens before
any recursion). -/
theorem c3_missing_key_keyerror (es : List (String × PyVal)) (key : String)
    (fuel : Nat) (habs : dictGet es key = none) (hf : 0 < fuel) :
    get_source_dependency_tree (.dict es) fuel (some (.str key)) =
      .error (.keyError ("The source key " ++ key ++
        " was not found in the sources config.")) := by
  obtain ⟨f, rfl⟩ : ∃ f, fuel = f + 1 := ⟨fuel - 1, by omega⟩
  simp [get_source_dependency_tree, pyGetKey, habs, keyRepr]

/-- Witness for C3 at the concrete scenario `resolve(config, "missing_key")`. -/
theorem c3_missing_key_keyerror_witness :
    get_source_dependency_tree (.dict []) 1 (some (.str "missing_key")) =
      .error (.keyError
        "The source key missing_key was not found in the sources config.") :=
  c3_missing_key_keyerror [] "missing_key" 1 rfl (by omega)

/-! ## Claim C4: missing connection config (corrected)

The claim says a definition with no declared kind fails with the generic
`ConfigError` both when the `connection` field itself is absent and when
`connection` is present but its `config` entry is absent.  The code only
raises `Exception("Invalid source config.")` in the second case: when
`connection` is absent, `source_config.get("connection")` is `None` and
`None.get("config")` raises `AttributeError` instead. -/

/-- Counterexample to C4 as stated: for `{"k": {}}` (no declared kind, no
`connection` field at all) the resolver fails with `AttributeError`, which
is not the generic `Exception("Invalid source config.")`. -/
theorem c4_missing_connection_counterexample :
    get_source_dependency_tree (.dict [("k", .dict [])]) 1 (some (.str "k")) =
      .error .attributeError ∧
    (Except.error PyError.attributeError : Except PyError PyVal) ≠
      .error (.exception "Invalid source config.") := by
  refine ⟨rfl, fun h => ?_⟩
  injection h with h2
  exact PyError.noConfusion h2

/-- C4 amended: for a definition with no declared kind, the generic
`Exception("Invalid source config.")` is raised exactly when `connection`
is present (as a dict) but its `config` entry is absent; when the
`connection` field itself is absent the failure is an `AttributeError`
(from `None.get("config")`), a different exception class. -/
theorem c4_missing_connection_amended (es sc : List (String × PyVal))
    (k : String) (fuel : Nat) (hk : dictGet es k = some (.dict sc))
    (htype : dictGet sc "type" = none) (hf : 0 < fuel) :
    (dictGet sc "connection" = none →
      get_source_dependency_tree (.dict es) fuel (some (.str k)) =
        .error .attributeError) ∧
    (∀ ces, dictGet sc "connection" = some (.dict ces) →
      dictGet ces "config" = none →
      get_source_dependency_tree (.dict es) fuel (some (.str k)) =
        .error (.exception "Invalid source config.")) := by
  obtain ⟨f, rfl⟩ : ∃ f, fuel = f + 1 := ⟨fuel - 1, by omega⟩
  constructor
  · intro hconn
    simp [get_source_dependency_tree, pyGetKey, pyGet, hk, htype, hconn,
      isComplexType]
  · intro ces hconn hcfg
    simp [get_source_dependency_tree, pyGetKey, pyGet, hk, htype, hconn, hcfg,
      isComplexType]

/-- Witness for the amended C4: both branches at concrete configurations. -/
theorem c4_missing_connection_amended_witness :
    (get_source_dependency_tree (.dict [("k", .dict [])]) 1 (some (.str "k")) =
      .error .attributeError) ∧
    (get_source_dependency_tree
        (.dict [("k", .dict [("connection", .dict [])])]) 1 (some (.str "k")) =
      .error (.exception "Invalid source config.")) :=
  ⟨(c4_missing_connection_amended [("k", .dict [])] [] "k" 1 rfl rfl
      (by omega)).1 rfl,
   (c4_missing_connection_amended [("k", .dict [("connection", .dict [])])]
      [("connection", .dict [])] "k" 1 rfl rfl (by omega)).2 [] rfl rfl⟩

/-! ## Claim C9: mapping/multi definitions missing a child field -/

/-- C9: a definition declared `"mapping"` that omits `"left"` (or omits
`"right"` while the left branch resolves), or declared `"multi"` that omits
`"original"`, does not get a ConfigError: the code recurses with Python
`None` as the child key and fails with the KeyError saying the source key
`None` was not found.  Fuel `f + 2` covers the one extra recursion level. -/
theorem c9_missing_child_field_keyerror :
    (∀ (es sc : List (String × PyVal)) (k : String) (f : Nat),
      dictGet es k = some (.dict sc) →
      dictGet sc "type" = some (.str "mapping") →
      dictGet sc "left" = none →
      get_source_dependency_tree (.dict es) (f + 2) (some (.str k)) =
        .error (.keyError
          "The source key None was not found in the sources config.")) ∧
    (∀ (es sc : List (String × PyVal)) (k : String) (f : Nat) (ltree : PyVal),
      dictGet es k = some (.dict sc) →
      dictGet sc "type" = some (.str "mapping") →
      dictGet sc "right" = none →
      get_source_dependency_tree (.dict es) (f + 1) (dictGet sc "left") =
        .ok ltree →
      get_source_dependency_tree (.dict es) (f + 2) (some (.str k)) =
        .error (.keyError
          "The source key None was not found in the sources config.")) ∧
    (∀ (es sc : List (String × PyVal)) (k : String) (f : Nat),
      dictGet es k = some (.dict sc) →
      dictGet sc "type" = some (.str "multi") →
      dictGet sc "original" = none →
      get_source_dependency_tree (.dict es) (f + 2) (some (.str k)) =
        .error (.keyError
          "The source key None was not found in the sources config.")) := by
  refine ⟨?_, ?_, ?_⟩
  · intro es sc k f hk htype hleft
    conv_lhs => rw [get_source_dependency_tree]
    simp [pyGetKey, pyGet, hk, htype, hleft, isComplexType, complex_sources,
      optEqStr, pyEqStr, get_source_dependency_tree, keyRepr]
  · intro es sc k f ltree hk htype hright hlt
    conv_lhs => rw [get_source_dependency_tree]
    simp [pyGetKey, pyGet, hk, htype, hright, isComplexType, complex_sources,
      optEqStr, pyEqStr, hlt]
    rw [get_source_dependency_tree]
    simp [pyGetKey, keyRepr]
  · intro es sc k f hk htype horig
    conv_lhs => rw [get_source_dependency_tree]
    simp [pyGetKey, pyGet, hk, htype, horig, isComplexType, complex_sources,
      optEqStr, pyEqStr, get_source_dependency_tree, keyRepr]

/-- Witness for C9: a mapping with no `"left"`, a mapping with no
`"right"` (left present and resolving), and a multi with no `"original"`,
each at a concrete configuration. -/
theorem c9_missing_child_field_keyerror_witness :
    (get_source_dependency_tree
        (.dict [("m", .dict [("type", .str "mapping"), ("right", .str "a")]),
                ("a", .dict [("type", .str "union_directory")])])
        2 (some (.str "m")) =
      .error (.keyError
        "The source key None was not found in the sources config.")) ∧
    (get_source_dependency_tree
        (.dict [("m", .dict [("type", .str "mapping"), ("left", .str "a")]),
                ("a", .dict [("type", .str "union_directory")])])
        2 (some (.str "m")) =
      .error (.keyError
        "The source key None was not found in the sources config.")) ∧
    (get_source_dependency_tree
        (.dict [("m", .dict [("type", .str "multi")])]) 2 (some (.str "m")) =
      .error (.keyError
        "The source key None was not found in the sources config.")) :=
  ⟨c9_missing_child_field_keyerror.1
      [("m", .dict [("type", .str "mapping"), ("right", .str "a")]),
       ("a", .dict [("type", .str "union_directory")])]
      [("type", .str "mapping"), ("right", .str "a")] "m" 0 rfl rfl rfl,
   c9_missing_child_field_keyerror.2.1
      [("m", .dict [("type", .str "mapping"), ("left", .str "a")]),
       ("a", .dict [("type", .str "union_directory")])]
      [("type", .str "mapping"), ("left", .str "a")] "m" 0
      (.dict [("a", .str "union_directory")]) rfl rfl rfl rfl,
   c9_missing_child_field_keyerror.2.2
      [("m", .dict [("type", .str "multi")])] [("type", .str "multi")] "m" 0
      rfl rfl rfl⟩

/-! ## Claim C10: the builder on an empty tree dict -/

/-- C10: `build_source_dependency_chart` applied to an empty dependency
tree dict fails with `StopIteration` from `next(iter(tree.keys()))` —
not with the TypeError or the tagged Exception the function documents —
for every chart, counter, parent and branch flag. -/
theorem c10_empty_tree_stop_iteration (chart : Flowchart) (ctr : Nat)
    (parent : Option Node) (mr : Bool) (fuel : Nat) (hf : 0 < fuel) :
    build_source_dependency_chart fuel chart ctr (some (.dict [])) parent mr =
      .error .stopIteration ∧
    (∀ msg, PyError.stopIteration ≠ .typeError msg) ∧
    (∀ msg, PyError.stopIteration ≠ .exception msg) := by
  obtain ⟨f, rfl⟩ : ∃ f, fuel = f + 1 := ⟨fuel - 1, by omega⟩
  refine ⟨rfl, ?_, ?_⟩ <;> intro msg h <;> cases h

/-- Witness for C10 on a fresh flowchart with one unit of fuel. -/
theorem c10_empty_tree_stop_iteration_witness :
    build_source_dependency_chart 1 Flowchart.empty 100 (some (.dict []))
      none false = .error .stopIteration :=
  (c10_empty_tree_stop_iteration Flowchart.empty 100 none false 1 (by omega)).1

/-! ## Claim C7: set_style (corrected)

The claim says `set_style` emits one fragment per non-null argument, never
omits a non-null `stroke_width`, and never removes a character of the node
id.  The code tests Python truthiness (so `stroke_width=0`, `fill=""` and
`stroke_dasharray=[]` are silently dropped) and always slices `style[:-1]`,
which chops the last character of the node id when no fragment was added. -/

/-- Counterexample to C7 as stated: with all-`None` styling except a
non-null `stroke_width = 0`, the node id `"100"` loses its final character
and the stroke-width fragment is omitted: the style is `"style 10"`. -/
theorem c7_set_style_counterexample :
    ((Node.make 100 "A" "[]" none).1.set_style none none (some 0) none).style =
      some "style 10" ∧
    ("style 10" : String) ≠ "style 100" ∧
    ("style 10" : String) ≠ "style 100 stroke-width:0px" := by
  refine ⟨rfl, by decide, by decide⟩

/-- The style fragments the spec describes, restricted to truthy arguments:
one fragment per argument that is non-`None` and non-empty/non-zero, in
source order, each ending in the `,` separator. -/
def styleFragments (fill : Option String) (stroke : Option String)
    (stroke_width : Option Int) (stroke_dasharray : Option (List Int)) :
    String :=
  (if truthyS fill then " fill:" ++ Option.getD fill "" ++ "," else "") ++
  (if truthyS stroke then " stroke:" ++ Option.getD stroke "" ++ "," else "") ++
  (if truthyI stroke_width then
    " stroke-width:" ++ toString (Option.getD stroke_width 0) ++ "px," else "") ++
  (if truthyL stroke_dasharray then
    " stroke-dasharray: " ++
      String.intercalate " " ((Option.getD stroke_dasharray []).map toString) ++
      ","
   else "")

theorem append_if_empty (c : Prop) [Decidable c] (s t : String) :
    (if c then s ++ t else s) = s ++ (if c then t else "") := by
  split <;> simp [String.append_empty]

theorem append3_if_empty (c : Prop) [Decidable c] (s a b d : String) :
    (if c then s ++ a ++ b ++ d else s) = s ++ (if c then a ++ b ++ d else "") := by
  split
  · simp only [String.append_assoc]
  · rw [String.append_empty]

theorem strDropLast_append_comma (a : String) : strDropLast (a ++ ",") = a := by
  have h : (a ++ ",").data = a.data ++ [','] := String.data_append a ","
  simp only [strDropLast, h, List.dropLast_concat]

/-- Either-empty-or-comma-terminated is preserved by concatenation. -/
theorem comma_ended_append (a b : String)
    (ha : a = "" ∨ ∃ u, a = u ++ ",") (hb : b = "" ∨ ∃ u, b = u ++ ",") :
    a ++ b = "" ∨ ∃ u, a ++ b = u ++ "," := by
  rcases hb with rfl | ⟨u, rfl⟩
  · simpa [String.append_empty] using ha
  · exact Or.inr ⟨a ++ u, by rw [String.append_assoc]⟩

/-- C7 amended: the produced style is `"style <node_id>"` followed by
exactly one fragment per *truthy* argument (non-`None` and non-empty /
non-zero; in particular a `stroke_width` of `0` is omitted), with the final
character of the accumulated string dropped.  When at least one fragment is
present that final character is the trailing comma, so the style is the
base plus the comma-trimmed fragments; when no fragment is present the
dropped character is the last character of the node id itself. -/
theorem c7_set_style_amended (n : Node) (fill : Option String)
    (stroke : Option String) (sw : Option Int) (sd : Option (List Int)) :
    ((n.set_style fill stroke sw sd).style =
      some (strDropLast ("style " ++ n.node_id ++
        styleFragments fill stroke sw sd))) ∧
    (styleFragments fill stroke sw sd = "" ∨
      ∃ s, styleFragments fill stroke sw sd = s ++ ",") ∧
    (∀ s, styleFragments fill stroke sw sd = s ++ "," →
      (n.set_style fill stroke sw sd).style =
        some ("style " ++ n.node_id ++ s)) ∧
    (styleFragments fill stroke sw sd = "" →
      (n.set_style fill stroke sw sd).style =
        some (strDropLast ("style " ++ n.node_id))) := by
  have hmain : (n.set_style fill stroke sw sd).style =
      some (strDropLast ("style " ++ n.node_id ++
        styleFragments fill stroke sw sd)) := by
    simp only [Node.set_style, styleFragments]
    rw [append3_if_empty, append3_if_empty, append3_if_empty, append3_if_empty]
    simp only [String.append_assoc]
  have hcomma : styleFragments fill stroke sw sd = "" ∨
      ∃ s, styleFragments fill stroke sw sd = s ++ "," := by
    apply comma_ended_append
    · apply comma_ended_append
      · apply comma_ended_append
        · split
          · exact Or.inr ⟨_, rfl⟩
          · exact Or.inl rfl
        · split
          · exact Or.inr ⟨_, rfl⟩
          · exact Or.inl rfl
      · split
        · refine Or.inr ⟨" stroke-width:" ++ toString (sw.getD 0) ++ "px", ?_⟩
          rw [show ("px," : String) = "px" ++ "," from rfl]
          simp [String.append_assoc]
        · exact Or.inl rfl
    · split
      · exact Or.inr ⟨_, rfl⟩
      · exact Or.inl rfl
  refine ⟨hmain, hcomma, ?_, ?_⟩
  · intro s hs
    rw [hmain, hs, ← String.append_assoc, strDropLast_append_comma]
  · intro hs
    rw [hmain, hs, String.append_empty]

/-- Witness for the amended C7: concrete evaluations on a node with id
`"100"`, for the no-fragment case and a truthy-fill case. -/
theorem c7_set_style_amended_witness :
    ((Node.make 100 "A" "[]" none).1.set_style none none (some 0) none).style =
      some (strDropLast ("style " ++ "100" ++ styleFragments none none (some 0) none)) ∧
    ((Node.make 100 "A" "[]" none).1.set_style (some "#f00") none none none).style =
      some ("style " ++ "100" ++ " fill:#f00") :=
  ⟨(c7_set_style_amended (Node.make 100 "A" "[]" none).1 none none (some 0)
      none).1,
   (c7_set_style_amended (Node.make 100 "A" "[]" none).1 (some "#f00") none
      none none).2.2.1 " fill:#f00" rfl⟩

/-! ## Claim C8: the shape table round trip -/

/-- C8: every named shape in the table round-trips through `set_shape`
(reading the shape back gives exactly the table's delimiter pair), and
`set_shape_raw` accepts exactly the twelve values of the table, raising the
listing exception on everything else — in particular the default rectangle
shape `"[]"` is not a table value and is rejected. -/
theorem c8_shape_table_roundtrip :
    (∀ (n : Node) (name shp : String), (name, shp) ∈ shape_map →
      n.set_shape name = .ok { n with shape := shp }) ∧
    (∀ (n : Node) (s : String), s ∈ shape_map.map Prod.snd →
      n.set_shape_raw s = .ok { n with shape := s }) ∧
    (∀ (n : Node) (s : String), s ∉ shape_map.map Prod.snd →
      n.set_shape_raw s = .error (.exception ("Shape string " ++ s ++
        " is not valid. Valid options are: " ++
        String.intercalate ", " (shape_map.map Prod.snd)))) ∧
    (shape_map.map Prod.snd).length = 12 ∧
    (shape_map.map Prod.snd).Nodup ∧
    "[]" ∉ shape_map.map Prod.snd := by
  refine ⟨?_, ?_, ?_, by decide, by decide, by decide⟩
  · intro n name shp h
    fin_cases h <;> rfl
  · intro n s h
    fin_cases h <;> rfl
  · intro n s h
    rw [Node.set_shape_raw, if_neg h]

/-- Witness for C8: the `"rounded"` round trip, a raw acceptance, and the
rejection of the default rectangle `"[]"`. -/
theorem c8_shape_table_roundtrip_witness :
    ((Node.make 100 "A" "[]" none).1.set_shape "rounded" =
      .ok { (Node.make 100 "A" "[]" none).1 with shape := "()" }) ∧
    ((Node.make 100 "A" "[]" none).1.set_shape_raw "(())" =
      .ok { (Node.make 100 "A" "[]" none).1 with shape := "(())" }) ∧
    ((Node.make 100 "A" "[]" none).1.set_shape_raw "[]" =
      .error (.exception ("Shape string " ++ "[]" ++
        " is not valid. Valid options are: " ++
        String.intercalate ", " (shape_map.map Prod.snd)))) :=
  ⟨c8_shape_table_roundtrip.1 (Node.make 100 "A" "[]" none).1 "rounded" "()"
      (by decide),
   c8_shape_table_roundtrip.2.1 (Node.make 100 "A" "[]" none).1 "(())"
      (by decide),
   c8_shape_table_roundtrip.2.2.1 (Node.make 100 "A" "[]" none).1 "[]"
      (by decide)⟩

/-! ## Claim C6: the serialization layout of `to_mermaid` -/

/-- Concatenation of a list of line strings. -/
def strConcat : List String → String
  | [] => ""
  | s :: rest => s ++ strConcat rest

/-- The spec's node-definition line: the node id followed by the label
embedded between the two halves of the shape string, split at its character
midpoint (spaces at the ends stripped, as the serializer does). -/
def specNodeLine (n : Node) : String :=
  "\n" ++ n.node_id ++ n.shape.take (n.shape.length / 2) ++ n.label ++
    n.shape.drop (n.shape.length / 2)

/-- A node's contribution to the serialized text: its definition line,
immediately followed by its style line when the style is set. -/
def specNodeBlock (n : Node) : String :=
  stripSpaces (specNodeLine n) ++
    (match n.style with
     | some st => "\n" ++ stripSpaces st
     | none => "")

theorem foldl_append_strConcat {α : Type} (f : α → String) (l : List α)
    (init : String) :
    l.foldl (fun acc x => acc ++ f x) init = init ++ strConcat (l.map f) := by
  induction l generalizing init with
  | nil => simp [strConcat, String.append_empty]
  | cons a tl ih =>
    rw [List.foldl_cons, ih]
    simp only [List.map_cons, strConcat, String.append_assoc]

theorem nodes_foldl_eq (l : List Node) (init : String) :
    l.foldl
      (fun acc node =>
        let acc2 := acc ++ stripSpaces node.get_node_code
        match node.style with
        | some st => acc2 ++ "\n" ++ stripSpaces st
        | none => acc2) init =
    init ++ strConcat (l.map specNodeBlock) := by
  induction l generalizing init with
  | nil => simp [strConcat, String.append_empty]
  | cons a tl ih =>
    rw [List.foldl_cons, ih]
    cases hstyle : a.style <;>
      simp only [hstyle, List.map_cons, strConcat, specNodeBlock, specNodeLine,
        Node.get_node_code, String.append_assoc, String.append_empty]

/-- C6: `to_mermaid` is exactly the header naming the orientation, then one
node-definition line per node in insertion order (label embedded between the
two halves of the shape string, split at its character midpoint), each
immediately followed by the node's style line when set, then one edge line
per recorded path in insertion order, then all fn-click directive lines,
then all href-click directive lines. -/
theorem c6_to_mermaid_layout (fc : Flowchart) :
    fc.to_mermaid =
      "graph " ++ fc.orient ++
      strConcat (fc.nodes.map specNodeBlock) ++
      strConcat (fc.paths.map stripSpaces) ++
      strConcat (fc.clicks.map (fun kv => stripSpaces kv.2)) ++
      strConcat (fc.hrefs.map (fun kv => stripSpaces kv.2)) := by
  simp only [Flowchart.to_mermaid]
  rw [nodes_foldl_eq, foldl_append_strConcat, foldl_append_strConcat,
    foldl_append_strConcat]

/-! ## Claim C2: acyclic configurations resolve with one entry per visit -/

/-- The predicate `Resolves cfg k dep n`: starting from key `k`, every key reachable in
`cfg` transitively resolves to a leaf kind (inferred file/sql, or declared
union_directory) with no cycles, within recursion depth `dep`, visiting `n`
keys in total.  A key is counted once per reference path: a key referenced
from several branches is resolved again and counted again.  Union source
dicts are Python dicts, so their keys are pairwise distinct. -/
inductive Resolves (cfg : List (String × PyVal)) : String → Nat → Nat → Prop where
  | inferLeaf : ∀ (k : String) (sc conn cc : List (String × PyVal)),
      dictGet cfg k = some (.dict sc) →
      dictGet sc "type" = none →
      dictGet sc "connection" = some (.dict conn) →
      dictGet conn "config" = some (.dict cc) →
      Resolves cfg k 1 1
  | unionDir : ∀ (k : String) (sc : List (String × PyVal)),
      dictGet cfg k = some (.dict sc) →
      dictGet sc "type" = some (.str "union_directory") →
      Resolves cfg k 1 1
  | mapping : ∀ (k lk rk : String) (sc : List (String × PyVal)) (dep nl nr : Nat),
      dictGet cfg k = some (.dict sc) →
      dictGet sc "type" = some (.str "mapping") →
      dictGet sc "left" = some (.str lk) →
      dictGet sc "right" = some (.str rk) →
      Resolves cfg lk dep nl →
      Resolves cfg rk dep nr →
      Resolves cfg k (dep + 1) (1 + nl + nr)
  | union : ∀ (k : String) (sc ses : List (String × PyVal)) (dep : Nat)
      (cnt : String → Nat),
      dictGet cfg k = some (.dict sc) →
      dictGet sc "type" = some (.str "union") →
      dictGet sc "sources" = some (.dict ses) →
      (ses.map Prod.fst).Nodup →
      (∀ ck ∈ ses.map Prod.fst, Resolves cfg ck dep (cnt ck)) →
      Resolves cfg k (dep + 1) (1 + ((ses.map Prod.fst).map cnt).sum)
  | multi : ∀ (k orig : String) (sc : List (String × PyVal)) (dep n : Nat),
      dictGet cfg k = some (.dict sc) →
      dictGet sc "type" = some (.str "multi") →
      dictGet sc "original" = some (.str orig) →
      Resolves cfg orig dep n →
      Resolves cfg k (dep + 1) (1 + n)
  | mono : ∀ (k : String) (d1 d2 n : Nat),
      Resolves cfg k d1 n → d1 ≤ d2 → Resolves cfg k d2 n

/-- The union loop of the resolver: if every member key resolves to a
single-entry tree and the member keys are pairwise distinct and disjoint
from the accumulator, the sequential `update` fold appends exactly one root
entry per member. -/
theorem union_fold_ok (cfg : List (String × PyVal)) (fuel : Nat)
    (cnt : String → Nat) :
    ∀ (ses : List (String × PyVal)),
    (∀ p ∈ ses, ∃ t : DTree,
      get_source_dependency_tree (.dict cfg) fuel (some (.str p.1)) =
        .ok t.toVal ∧ t.key = p.1 ∧ t.keyCount = cnt p.1) →
    (ses.map Prod.fst).Nodup →
    ∀ (acc : List (String × PyVal)), (∀ p ∈ ses, p.1 ∉ acc.map Prod.fst) →
    ∃ f : DForest,
      ses.foldl
        (fun (acc2 : Except PyError (List (String × PyVal))) kv =>
          match acc2 with
          | .error e => .error e
          | .ok accd =>
            match get_source_dependency_tree (.dict cfg) fuel
                (some (.str kv.1)) with
            | .error e => .error e
            | .ok sub => dictUpdate accd sub)
        (.ok acc) = .ok (acc ++ f.entries) ∧
      f.keys = ses.map Prod.fst ∧
      f.keyCount = ((ses.map Prod.fst).map cnt).sum := by
  intro ses
  induction ses with
  | nil =>
    intro _ _ acc _
    exact ⟨.nil, by simp [DForest.entries], by simp [DForest.keys],
      by simp [DForest.keyCount]⟩
  | cons p rest ih =>
    intro hch hnd acc hdisj
    obtain ⟨t, ht, htk, htc⟩ := hch p (List.mem_cons_self p rest)
    simp only [List.map_cons, List.nodup_cons] at hnd
    have hrest : ∀ q ∈ rest, ∃ t2 : DTree,
        get_source_dependency_tree (.dict cfg) fuel (some (.str q.1)) =
          .ok t2.toVal ∧ t2.key = q.1 ∧ t2.keyCount = cnt q.1 :=
      fun q hq => hch q (List.mem_cons_of_mem p hq)
    have hdisj2 : ∀ q ∈ rest, q.1 ∉ (acc ++ [(p.1, t.nest)]).map Prod.fst := by
      intro q hq
      simp only [List.map_append, List.mem_append, List.map_cons,
        List.map_nil, List.mem_singleton]
      rintro (hmem | hmem)
      · exact hdisj q (List.mem_cons_of_mem p hq) hmem
      · exact hnd.1 (hmem ▸ List.mem_map_of_mem Prod.fst hq)
    obtain ⟨f, hfold, hkeys, hcnt⟩ := ih hrest hnd.2 (acc ++ [(p.1, t.nest)])
      hdisj2
    refine ⟨.cons t f, ?_, ?_, ?_⟩
    · rw [List.foldl_cons]
      have hstep : (match get_source_dependency_tree (.dict cfg) fuel
            (some (.str p.1)) with
          | Except.error e => Except.error e
          | Except.ok sub => dictUpdate acc sub) =
          .ok (acc ++ [(p.1, t.nest)]) := by
        rw [ht]
        simp only [DTree.toVal, dictUpdate, List.foldl_cons, List.foldl_nil]
        rw [dictSet_of_not_mem acc t.key t.nest
          (htk ▸ hdisj p (List.mem_cons_self p rest)), htk]
      simp only [hstep, hfold, DForest.entries, htk]
      rw [List.append_assoc]
      simp
    · simp [DForest.keys, hkeys, htk]
    · simp [DForest.keyCount, hcnt, htc]

/-- Soundness of `Resolves`: with fuel at least the resolution depth, the
resolver succeeds and returns the rendering of a dependency tree with
exactly one source-key entry per visited key. -/
theorem resolves_sound (cfg : List (String × PyVal)) (k : String) (dep n : Nat)
    (h : Resolves cfg k dep n) :
    ∀ fuel, dep ≤ fuel →
    ∃ t : DTree,
      get_source_dependency_tree (.dict cfg) fuel (some (.str k)) =
        .ok t.toVal ∧ t.key = k ∧ t.keyCount = n := by
  induction h with
  | inferLeaf k sc conn cc hk htype hconn hcfg =>
    intro fuel hf
    obtain ⟨f, rfl⟩ : ∃ f, fuel = f + 1 := ⟨fuel - 1, by omega⟩
    by_cases hft : "file_type" ∈ cc.map Prod.fst
    · refine ⟨.leaf k "file", ?_, rfl, rfl⟩
      simp [get_source_dependency_tree, pyGetKey, pyGet, hk, htype, hconn,
        hcfg, isComplexType, hft, DTree.toVal, DTree.key, DTree.nest, keyRepr]
    · refine ⟨.leaf k "sql", ?_, rfl, rfl⟩
      simp [get_source_dependency_tree, pyGetKey, pyGet, hk, htype, hconn,
        hcfg, isComplexType, hft, DTree.toVal, DTree.key, DTree.nest, keyRepr]
  | unionDir k sc hk htype =>
    intro fuel hf
    obtain ⟨f, rfl⟩ : ∃ f, fuel = f + 1 := ⟨fuel - 1, by omega⟩
    refine ⟨.leaf k "union_directory", ?_, rfl, rfl⟩
    simp [get_source_dependency_tree, pyGetKey, pyGet, hk, htype,
      isComplexType, complex_sources, pyEqStr, DTree.toVal, DTree.key,
      DTree.nest, keyRepr]
  | mapping k lk rk sc dep nl nr hk htype hleft hright hl hr ihl ihr =>
    intro fuel hf
    obtain ⟨f, rfl⟩ : ∃ f, fuel = f + 1 := ⟨fuel - 1, by omega⟩
    obtain ⟨lt, hlt, hltk, hltc⟩ := ihl f (by omega)
    obtain ⟨rt, hrt, hrtk, hrtc⟩ := ihr f (by omega)
    refine ⟨.mapNode k lt rt, ?_, rfl, ?_⟩
    · simp [get_source_dependency_tree, pyGetKey, pyGet, hk, htype, hleft,
        hright, isComplexType, complex_sources, optEqStr, pyEqStr, hlt, hrt,
        DTree.toVal, DTree.key, DTree.nest, keyRepr, hltk, hrtk]
    · simp [DTree.keyCount, hltc, hrtc]
  | union k sc ses dep cnt hk htype hsrc hnd hch ih =>
    intro fuel hf
    obtain ⟨f, rfl⟩ : ∃ f, fuel = f + 1 := ⟨fuel - 1, by omega⟩
    have hch2 : ∀ p ∈ ses, ∃ t : DTree,
        get_source_dependency_tree (.dict cfg) f (some (.str p.1)) =
          .ok t.toVal ∧ t.key = p.1 ∧ t.keyCount = cnt p.1 :=
      fun p hp => ih p.1 (List.mem_map_of_mem Prod.fst hp) f (by omega)
    obtain ⟨fo, hfold, hkeys, hcnt⟩ :=
      union_fold_ok cfg f cnt ses hch2 hnd [] (by simp)
    refine ⟨.unionNode k fo, ?_, rfl, ?_⟩
    · simp [get_source_dependency_tree, pyGetKey, pyGet, hk, htype, hsrc,
        isComplexType, complex_sources, optEqStr, pyEqStr, hfold,
        DTree.toVal, DTree.key, DTree.nest, keyRepr]
    · simp [DTree.keyCount, hcnt]
  | multi k orig sc dep n hk htype horig hsub ih =>
    intro fuel hf
    obtain ⟨f, rfl⟩ : ∃ f, fuel = f + 1 := ⟨fuel - 1, by omega⟩
    obtain ⟨st, hst, hstk, hstc⟩ := ih f (by omega)
    refine ⟨.multiNode k st, ?_, rfl, ?_⟩
    · simp [get_source_dependency_tree, pyGetKey, pyGet, hk, htype, horig,
        isComplexType, complex_sources, optEqStr, pyEqStr, hst, DTree.toVal,
        DTree.key, DTree.nest, keyRepr, hstk]
    · simp [DTree.keyCount, hstc]
  | mono k d1 d2 n hres hle ih =>
    intro fuel hf
    exact ih fuel (by omega)

/-- C2: for every configuration in which every key reachable from the
target key transitively resolves to a leaf kind with no cycles — captured
by a `Resolves` derivation, whose index `n` counts the keys visited during
resolution, once per distinct reference path (repeats counted when a key is
referenced from several branches) — `get_source_dependency_tree` terminates
(succeeds for every fuel at least the derivation depth) and returns a
dependency tree whose total number of source-key entries (`DTree.keyCount`)
is exactly `n`. -/
theorem c2_acyclic_resolution (cfg : List (String × PyVal)) (k : String)
    (dep n : Nat) (h : Resolves cfg k dep n) (fuel : Nat) (hf : dep ≤ fuel) :
    ∃ t : DTree,
      get_source_dependency_tree (.dict cfg) fuel (some (.str k)) =
        .ok t.toVal ∧ t.key = k ∧ t.keyCount = n :=
  resolves_sound cfg k dep n h fuel hf

/-- A small acyclic configuration for the C2 witness: a union of a
union_directory source and an inferred sql source. -/
def c2WitnessCfg : List (String × PyVal) :=
  [("u", .dict [("type", .str "union"),
      ("sources", .dict [("a", .dict []), ("b", .dict [])])]),
   ("a", .dict [("type", .str "union_directory")]),
   ("b", .dict [("connection", .dict [("config", .dict [])])])]

/-- Witness for C2 on the concrete union configuration: three keys are
visited and the returned tree has three source-key entries. -/
theorem c2_acyclic_resolution_witness :
    ∃ t : DTree,
      get_source_dependency_tree (.dict c2WitnessCfg) 2 (some (.str "u")) =
        .ok t.toVal ∧ t.key = "u" ∧ t.keyCount = 3 := by
  refine c2_acyclic_resolution c2WitnessCfg "u" 2 3 ?_ 2 (le_refl 2)
  have ha : Resolves c2WitnessCfg "a" 1 1 :=
    Resolves.unionDir "a" [("type", .str "union_directory")] rfl rfl
  have hb : Resolves c2WitnessCfg "b" 1 1 :=
    Resolves.inferLeaf "b" [("connection", .dict [("config", .dict [])])]
      [("config", .dict [])] [] rfl rfl rfl rfl
  exact Resolves.union "u"
    [("type", .str "union"),
     ("sources", .dict [("a", .dict []), ("b", .dict [])])]
    [("a", .dict []), ("b", .dict [])] 1 (fun _ => 1) rfl rfl rfl (by decide)
    (by
      intro ck hck
      simp only [List.map_cons, List.map_nil, List.mem_cons,
        List.not_mem_nil, or_false] at hck
      rcases hck with rfl | rfl
      · exact ha
      · exact hb)

/-! ## Claim C5: dashed edges appear exactly at right-branch leaves -/

mutual
/-- The spec's edge-styling policy, written from the claim: walking a tree
whose fresh node id is `ctr` under a parent node id, the produced edges are
— for a leaf under a parent, one edge from the leaf's node to the parent,
dashed `-.->` exactly when the leaf is the right sub-tree of a mapping
(`is_right` true) and solid `-->` otherwise; for a composite under a
parent, always a solid edge regardless of branch position; a mapping
recurses on its left child with `is_right := false` and on its right child
with `is_right := true`; union and multi children always recurse with
`is_right := false`. -/
def specEdgesT : DTree → Nat → Option String → Bool → List String × Nat
  | .leaf _ _, ctr, parent, is_right =>
    ((match parent with
      | some pid =>
        ["\n" ++ toString ctr ++ " " ++
          (if is_right then "-.->" else "-->") ++ pid]
      | none => []), ctr + 1)
  | .mapNode _ l r, ctr, parent, _ =>
    let here := match parent with
      | some pid => ["\n" ++ toString ctr ++ " " ++ "-->" ++ pid]
      | none => []
    let resL := specEdgesT l (ctr + 1) (some (toString ctr)) false
    let resR := specEdgesT r resL.2 (some (toString ctr)) true
    (here ++ resL.1 ++ resR.1, resR.2)
  | .unionNode _ f, ctr, parent, _ =>
    let here := match parent with
      | some pid => ["\n" ++ toString ctr ++ " " ++ "-->" ++ pid]
      | none => []
    let resF := specEdgesF f (ctr + 1) (toString ctr)
    (here ++ resF.1, resF.2)
  | .multiNode _ c, ctr, parent, _ =>
    let here := match parent with
      | some pid => ["\n" ++ toString ctr ++ " " ++ "-->" ++ pid]
      | none => []
    let resC := specEdgesT c (ctr + 1) (some (toString ctr)) false
    (here ++ resC.1, resC.2)
/-- Union children in order, all with `is_right := false`. -/
def specEdgesF : DForest → Nat → String → List String × Nat
  | .nil, ctr, _ => ([], ctr)
  | .cons t f, ctr, pid =>
    let r1 := specEdgesT t ctr (some pid) false
    let r2 := specEdgesF f r1.2 pid
    (r1.1 ++ r2.1, r2.2)
end

theorem dtree_key_leaf (k tag : String) : (DTree.leaf k tag).key = k := rfl

theorem dtree_key_map (k : String) (l r : DTree) :
    (DTree.mapNode k l r).key = k := rfl

theorem dtree_key_union (k : String) (f : DForest) :
    (DTree.unionNode k f).key = k := rfl

theorem dtree_key_multi (k : String) (c : DTree) :
    (DTree.multiNode k c).key = k := rfl

mutual
theorem build_edges_tree (t : DTree) (hwf : t.wf) (fuel : Nat)
    (chart : Flowchart) (ctr : Nat) (parent : Option Node) (mr : Bool)
    (hf : t.depth ≤ fuel) :
    ∃ fc2 : Flowchart,
      build_source_dependency_chart fuel chart ctr (some t.toVal) parent mr =
        .ok (fc2, (specEdgesT t ctr (parent.map Node.node_id) mr).2) ∧
      fc2.paths =
        chart.paths ++ (specEdgesT t ctr (parent.map Node.node_id) mr).1 := by
  cases t with
  | leaf k tag =>
    simp only [DTree.wf] at hwf
    obtain ⟨f2, rfl⟩ : ∃ f2, fuel = f2 + 1 :=
      ⟨fuel - 1, by simp [DTree.depth] at hf; omega⟩
    obtain ⟨shp, hshp⟩ := Option.isSome_iff_exists.mp hwf
    cases parent with
    | none =>
      refine ⟨chart.add_node ⟨k, toString ctr, shp, none⟩, ?_, ?_⟩
      · simp [build_source_dependency_chart, DTree.toVal, DTree.key,
          DTree.nest, dictGet_head, hshp, specEdgesT]
      · simp [specEdgesT, Flowchart.add_node]
    | some p =>
      cases mr with
      | false =>
        refine ⟨(chart.add_node ⟨k, toString ctr, shp, none⟩).add_path
          ⟨k, toString ctr, shp, none⟩ p "" "-->", ?_, ?_⟩
        · simp [build_source_dependency_chart, DTree.toVal, DTree.key,
            DTree.nest, dictGet_head, hshp, specEdgesT]
        · simp [specEdgesT, Flowchart.add_node, Flowchart.add_path,
            String.append_empty]
      | true =>
        refine ⟨(chart.add_node ⟨k, toString ctr, shp, none⟩).add_path
          ⟨k, toString ctr, shp, none⟩ p "" "-.->", ?_, ?_⟩
        · simp [build_source_dependency_chart, DTree.toVal, DTree.key,
            DTree.nest, dictGet_head, hshp, specEdgesT]
        · simp [specEdgesT, Flowchart.add_node, Flowchart.add_path,
            String.append_empty]
  | mapNode k l r =>
    simp only [DTree.wf] at hwf
    obtain ⟨f2, rfl⟩ : ∃ f2, fuel = f2 + 1 :=
      ⟨fuel - 1, by simp [DTree.depth] at hf; omega⟩
    have hfl : l.depth ≤ f2 := by simp [DTree.depth] at hf; omega
    have hfr : r.depth ≤ f2 := by simp [DTree.depth] at hf; omega
    cases parent with
    | none =>
      obtain ⟨fcl, hbl, hpl⟩ := build_edges_tree l hwf.1 f2
        (chart.add_node ⟨k, toString ctr, "\x7b\x7b\x7d\x7d", none⟩)
        (ctr + 1) (some ⟨k, toString ctr, "\x7b\x7b\x7d\x7d", none⟩) false hfl
      obtain ⟨fcr, hbr, hpr⟩ := build_edges_tree r hwf.2 f2 fcl
        (specEdgesT l (ctr + 1) (some (toString ctr)) false).2
        (some ⟨k, toString ctr, "\x7b\x7b\x7d\x7d", none⟩) true hfr
      simp only [DTree.toVal] at hbl hbr
      refine ⟨fcr, ?_, ?_⟩
      · simp [build_source_dependency_chart, DTree.toVal, dtree_key_map,
          DTree.nest, dictGet_head, dictGet, specEdgesT, hbl, hbr]
      · rw [hpr, hpl]
        simp [specEdgesT, Flowchart.add_node, List.append_assoc]
    | some p =>
      obtain ⟨fcl, hbl, hpl⟩ := build_edges_tree l hwf.1 f2
        ((chart.add_node ⟨k, toString ctr, "\x7b\x7b\x7d\x7d", none⟩).add_path
          ⟨k, toString ctr, "\x7b\x7b\x7d\x7d", none⟩ p "" "-->")
        (ctr + 1) (some ⟨k, toString ctr, "\x7b\x7b\x7d\x7d", none⟩) false hfl
      obtain ⟨fcr, hbr, hpr⟩ := build_edges_tree r hwf.2 f2 fcl
        (specEdgesT l (ctr + 1) (some (toString ctr)) false).2
        (some ⟨k, toString ctr, "\x7b\x7b\x7d\x7d", none⟩) true hfr
      simp only [DTree.toVal] at hbl hbr
      refine ⟨fcr, ?_, ?_⟩
      · simp [build_source_dependency_chart, DTree.toVal, dtree_key_map,
          DTree.nest, dictGet_head, dictGet, specEdgesT, hbl, hbr]
      · rw [hpr, hpl]
        simp [specEdgesT, Flowchart.add_node, Flowchart.add_path,
          String.append_empty, List.append_assoc]
  | unionNode k f =>
    simp only [DTree.wf] at hwf
    obtain ⟨f2, rfl⟩ : ∃ f2, fuel = f2 + 1 :=
      ⟨fuel - 1, by simp [DTree.depth] at hf; omega⟩
    have hff : f.depth ≤ f2 := by simp [DTree.depth] at hf; omega
    cases parent with
    | none =>
      obtain ⟨fcf, hbf, hpf⟩ := build_edges_forest f hwf f2
        (chart.add_node ⟨k, toString ctr, "\x7b\x7b\x7d\x7d", none⟩)
        (ctr + 1) ⟨k, toString ctr, "\x7b\x7b\x7d\x7d", none⟩ hff
      refine ⟨fcf, ?_, ?_⟩
      · simp [build_source_dependency_chart, DTree.toVal, dtree_key_union,
          DTree.nest, dictGet_head, dictGet, specEdgesT, hbf]
      · rw [hpf]
        simp [specEdgesT, Flowchart.add_node, List.append_assoc]
    | some p =>
      obtain ⟨fcf, hbf, hpf⟩ := build_edges_forest f hwf f2
        ((chart.add_node ⟨k, toString ctr, "\x7b\x7b\x7d\x7d", none⟩).add_path
          ⟨k, toString ctr, "\x7b\x7b\x7d\x7d", none⟩ p "" "-->")
        (ctr + 1) ⟨k, toString ctr, "\x7b\x7b\x7d\x7d", none⟩ hff
      refine ⟨fcf, ?_, ?_⟩
      · simp [build_source_dependency_chart, DTree.toVal, dtree_key_union,
          DTree.nest, dictGet_head, dictGet, specEdgesT, hbf]
      · rw [hpf]
        simp [specEdgesT, Flowchart.add_node, Flowchart.add_path,
          String.append_empty, List.append_assoc]
  | multiNode k c =>
    simp only [DTree.wf] at hwf
    obtain ⟨f2, rfl⟩ : ∃ f2, fuel = f2 + 1 :=
      ⟨fuel - 1, by simp [DTree.depth] at hf; omega⟩
    have hfc : c.depth ≤ f2 := by simp [DTree.depth] at hf; omega
    cases parent with
    | none =>
      obtain ⟨fcc, hbc, hpc⟩ := build_edges_tree c hwf f2
        (chart.add_node ⟨k, toString ctr, "\x7b\x7b\x7d\x7d", none⟩)
        (ctr + 1) (some ⟨k, toString ctr, "\x7b\x7b\x7d\x7d", none⟩) false hfc
      simp only [DTree.toVal] at hbc
      refine ⟨fcc, ?_, ?_⟩
      · simp [build_source_dependency_chart, DTree.toVal, dtree_key_multi,
          DTree.nest, dictGet_head, dictGet, specEdgesT, hbc]
      · rw [hpc]
        simp [specEdgesT, Flowchart.add_node, List.append_assoc]
    | some p =>
      obtain ⟨fcc, hbc, hpc⟩ := build_edges_tree c hwf f2
        ((chart.add_node ⟨k, toString ctr, "\x7b\x7b\x7d\x7d", none⟩).add_path
          ⟨k, toString ctr, "\x7b\x7b\x7d\x7d", none⟩ p "" "-->")
        (ctr + 1) (some ⟨k, toString ctr, "\x7b\x7b\x7d\x7d", none⟩) false hfc
      simp only [DTree.toVal] at hbc
      refine ⟨fcc, ?_, ?_⟩
      · simp [build_source_dependency_chart, DTree.toVal, dtree_key_multi,
          DTree.nest, dictGet_head, dictGet, specEdgesT, hbc]
      · rw [hpc]
        simp [specEdgesT, Flowchart.add_node, Flowchart.add_path,
          String.append_empty, List.append_assoc]

theorem build_edges_forest (f : DForest) (hwf : f.wf) (fuel : Nat)
    (chart : Flowchart) (ctr : Nat) (pnode : Node) (hf : f.depth ≤ fuel) :
    ∃ fc2 : Flowchart,
      f.entries.foldl
        (fun (acc : Except PyError (Flowchart × Nat)) kv =>
          match acc with
          | .error e => .error e
          | .ok st =>
            build_source_dependency_chart fuel st.1 st.2
              (some (.dict [(kv.1, kv.2)])) (some pnode) false)
        (.ok (chart, ctr)) =
        .ok (fc2, (specEdgesF f ctr pnode.node_id).2) ∧
      fc2.paths = chart.paths ++ (specEdgesF f ctr pnode.node_id).1 := by
  cases f with
  | nil =>
    exact ⟨chart, by simp [DForest.entries, specEdgesF],
      by simp [specEdgesF]⟩
  | cons t f =>
    simp only [DForest.wf] at hwf
    have hft : t.depth ≤ fuel := by simp [DForest.depth] at hf; omega
    have hff : f.depth ≤ fuel := by simp [DForest.depth] at hf; omega
    obtain ⟨fc1, hb1, hp1⟩ := build_edges_tree t hwf.1 fuel chart ctr
      (some pnode) false hft
    obtain ⟨fc2, hb2, hp2⟩ := build_edges_forest f hwf.2 fuel fc1
      (specEdgesT t ctr (some pnode.node_id) false).2 pnode hff
    refine ⟨fc2, ?_, ?_⟩
    · rw [DForest.entries, List.foldl_cons]
      simp only [DTree.toVal] at hb1
      simp only [Option.map_some, specEdgesF] at hb1 ⊢
      rw [hb1]
      exact hb2
    · rw [hp2, hp1, specEdgesF, List.append_assoc]
      simp
end

/-- C5: in every graph built from a well-formed dependency tree, the edges
appended by `build_source_dependency_chart` are exactly those of
`specEdgesT`, whose definition puts a dashed `-.->` edge exactly on a
leaf-kind node that is the right sub-tree of a mapping composite (pointing
to that mapping's node) and a solid `-->` edge everywhere else — every
composite-to-parent edge and every union/multi child edge is solid
regardless of branch position. -/
theorem c5_dashed_iff_right_leaf (t : DTree) (hwf : t.wf) (fuel : Nat)
    (chart : Flowchart) (ctr : Nat) (parent : Option Node) (mr : Bool)
    (hf : t.depth ≤ fuel) :
    ∃ fc2 : Flowchart,
      build_source_dependency_chart fuel chart ctr (some t.toVal) parent mr =
        .ok (fc2, (specEdgesT t ctr (parent.map Node.node_id) mr).2) ∧
      fc2.paths =
        chart.paths ++ (specEdgesT t ctr (parent.map Node.node_id) mr).1 :=
  build_edges_tree t hwf fuel chart ctr parent mr hf

/-- Witness for C5 on the concrete mapping tree of the worked example. -/
theorem c5_dashed_iff_right_leaf_witness :
    ∃ fc2 : Flowchart,
      build_source_dependency_chart 2 Flowchart.empty 100
          (some (DTree.mapNode "m" (.leaf "l" "file") (.leaf "r" "sql")).toVal)
          none false =
        .ok (fc2,
          (specEdgesT (DTree.mapNode "m" (.leaf "l" "file") (.leaf "r" "sql"))
            100 none false).2) ∧
      fc2.paths = Flowchart.empty.paths ++
        (specEdgesT (DTree.mapNode "m" (.leaf "l" "file") (.leaf "r" "sql"))
          100 none false).1 :=
  c5_dashed_iff_right_leaf
    (DTree.mapNode "m" (.leaf "l" "file") (.leaf "r" "sql")) ⟨rfl, rfl⟩ 2
    Flowchart.empty 100 none false (by decide)
